import Mathlib

/-!
Shallow embedding of `src/server.js` (an Express + PostgreSQL attendance API)
and proofs about its request handlers.

The relational store is modelled as lists of rows mirroring the schema created
by `POST /api/init-db`:
  * `persons      (person_id, name, rfid_tag UNIQUE, role, id_number UNIQUE)`
  * `sections     (section_id, section_name UNIQUE)`
  * `student_sections (person_id, section_id) PRIMARY KEY (person_id, section_id)`
  * `attendance   (person_id, classroom_id, timestamp)`
Each handler becomes a pure function from a request value and a database state
to a response value, the successor database state, and a trace of the storage
operations it issued.
-/

/-- A row of the `persons` table (`id_number` is inserted for every student the
API creates, so it is modelled as a plain string). -/
structure Person where
  person_id : Nat
  name : String
  rfid_tag : String
  role : String
  id_number : String
  deriving Repr, DecidableEq

/-- A row of the `sections` table. -/
structure SectionRow where
  section_id : Nat
  section_name : String
  deriving Repr, DecidableEq

/-- A row of the `student_sections` join table. -/
structure SectionLink where
  person_id : Nat
  section_id : Nat
  deriving Repr, DecidableEq

/-- A row of the `attendance` table; `timestamp` is the value of `NOW()` at
insertion, threaded into the verification handler as a parameter. -/
structure AttendanceEvent where
  person_id : Nat
  classroom_id : Nat
  timestamp : Nat
  deriving Repr, DecidableEq

/-- The database state shared by all handlers. -/
structure DB where
  persons : List Person
  sections : List SectionRow
  student_sections : List SectionLink
  attendance : List AttendanceEvent
  deriving Repr, DecidableEq

/-- Storage operations a handler may issue, recorded in traces so that claims
of the form "no query / no transaction is issued" are expressible. -/
inductive StorageOp where
  | connect
  | begin
  | query (description : String)
  | insert (table : String)
  | commit
  | rollback
  deriving Repr, DecidableEq

/-! ## The verification handler (`POST /api/verify-attendance`) -/

/-- One row of the result set of the verification SELECT:
`SELECT p.person_id, p.name, p.rfid_tag, p.id_number, s.section_name
 FROM persons p LEFT JOIN student_sections ss ... LEFT JOIN sections s ...`.
`section_name` is `none` when the LEFT JOINs produce NULL. -/
structure VerifyRow where
  person_id : Nat
  name : String
  rfid_tag : String
  id_number : String
  section_name : Option String
  deriving Repr, DecidableEq

/-- The rows the double LEFT JOIN produces for one person: one row per
`student_sections` link (joined with `sections` by `section_id`), or a single
row with NULL `section_name` when the person has no link. -/
def leftJoinRows (db : DB) (p : Person) : List VerifyRow :=
  let links := db.student_sections.filter (fun l => l.person_id == p.person_id)
  if links.isEmpty then
    [⟨p.person_id, p.name, p.rfid_tag, p.id_number, none⟩]
  else
    links.map (fun l =>
      ⟨p.person_id, p.name, p.rfid_tag, p.id_number,
        (db.sections.find? (fun s => s.section_id == l.section_id)).map
          SectionRow.section_name⟩)

/-- The verification SELECT: persons whose `rfid_tag` is in the input array and
whose role is `'student'`, fanned out by the LEFT JOINs. -/
def verifyQuery (db : DB) (rfid_tags : List String) : List VerifyRow :=
  (db.persons.filter
    (fun p => rfid_tags.contains p.rfid_tag && p.role == "student")).flatMap
      (leftJoinRows db)

/-- The request body of `POST /api/verify-attendance`.  `missing` models a
falsy `rfid_tags` field, `notArray` a non-array one; `tags` carries the array
together with the optional `classroom_id` (defaulted to 1 by destructuring). -/
inductive VerifyReq where
  | missing
  | notArray
  | tags (rfid_tags : List String) (classroom_id : Option Nat)
  deriving Repr, DecidableEq

/-- One student entry of a successful verification response. -/
structure VerifiedStudent where
  name : String
  «section» : String
  rfid_tag : String
  id_number : String
  status : String
  deriving Repr, DecidableEq

/-- The JSON response of `POST /api/verify-attendance`. -/
inductive VerifyResp where
  | err (status : Nat) (error : String)
  | ok (total_scans : Nat) (verified_students : List VerifiedStudent)
      (unrecognized : List String) (message : String)
  deriving Repr, DecidableEq

/-- The `POST /api/verify-attendance` handler.  `now` is the value of `NOW()`
used for the attendance inserts of this call. -/
def verifyAttendance (db : DB) (now : Nat) (req : VerifyReq) :
    VerifyResp × DB × List StorageOp :=
  match req with
  | .missing => (.err 400 "Invalid RFID tags array", db, [])
  | .notArray => (.err 400 "Invalid RFID tags array", db, [])
  | .tags rfid_tags cid =>
    let classroom_id := cid.getD 1
    let verifiedStudents := verifyQuery db rfid_tags
    let foundTags := verifiedStudents.map VerifyRow.rfid_tag
    let unrecognizedTags := rfid_tags.filter (fun tag => !foundTags.contains tag)
    let newEvents := verifiedStudents.map
      (fun student => AttendanceEvent.mk student.person_id classroom_id now)
    (.ok rfid_tags.length
      (verifiedStudents.map (fun student =>
        ⟨student.name, student.section_name.getD "Unknown", student.rfid_tag,
          student.id_number, "Present"⟩))
      unrecognizedTags
      (toString verifiedStudents.length ++ " students verified, " ++
        toString unrecognizedTags.length ++ " unrecognized tags"),
      { db with attendance := db.attendance ++ newEvents },
      StorageOp.query "verify select" ::
        newEvents.map (fun _ => StorageOp.insert "attendance"))

/-! ## The enrollment handler (`POST /api/add-student`) -/

/-- The request body of `POST /api/add-student`: each field is `none` when
absent from the JSON body.  JavaScript truthiness makes both a missing field
and an empty string fail the `if (!name || ...)` validation. -/
structure AddReq where
  name : Option String
  rfid_tag : Option String
  «section» : Option String
  id_number : Option String
  deriving Repr, DecidableEq

/-- A field passes the handler's truthiness check when present and non-empty. -/
def fieldPresent : Option String → Bool
  | none => false
  | some s => s != ""

/-- The JSON response of `POST /api/add-student`. -/
inductive AddResp where
  | err (status : Nat) (error : String)
  | ok (person_id : Nat) (name rfid_tag «section» id_number : String)
  deriving Repr, DecidableEq

/-- Next value of the `SERIAL` sequence for `sections.section_id`. -/
def nextSectionId (db : DB) : Nat :=
  db.sections.foldl (fun m s => max m s.section_id) 0 + 1

/-- Next value of the `SERIAL` sequence for `persons.person_id`. -/
def nextPersonId (db : DB) : Nat :=
  db.persons.foldl (fun m p => max m p.person_id) 0 + 1

/-- PostgreSQL's uniqueness check on `persons` (UNIQUE `rfid_tag`, UNIQUE
`id_number`): `true` when inserting `(tag, idn)` raises error code 23505. -/
def personInsertConflict (db : DB) (tag idn : String) : Bool :=
  db.persons.any (fun p => p.rfid_tag == tag) ||
    db.persons.any (fun p => p.id_number == idn)

/-- Lines 131-143 of the source: get or create the section by exact
(case-sensitive) name match.  Returns the state after the step, the resolved
`section_id`, and whether an INSERT was issued. -/
def getOrCreateSection (w : DB) (sectionName : String) : DB × Nat × Bool :=
  match w.sections.find? (fun s => s.section_name == sectionName) with
  | some s => (w, s.section_id, false)
  | none =>
    ({ w with sections := w.sections ++ [⟨nextSectionId w, sectionName⟩] },
      nextSectionId w, true)

/-- The `POST /api/add-student` handler.

The handler runs `pool.connect()` and `BEGIN` before reading or validating the
body; the early `return res...` paths leave the transaction open (neither
COMMIT nor ROLLBACK), so they never publish any row.

`mid : DB → DB` models what concurrent requests commit between the duplicate
pre-checks (which read `db`) and the INSERTs (which, under READ COMMITTED, see
and are constrained by the latest committed state `mid db`).  The sequential
case is `mid = id`, packaged below as `addStudentSeq`.  A 23505 unique-constraint
violation at INSERT time is caught, the transaction rolled back, and the
combined duplicate message returned. -/
def addStudent (db : DB) (mid : DB → DB) (req : AddReq) :
    AddResp × DB × List StorageOp :=
  let trace0 := [StorageOp.connect, StorageOp.begin]
  if !(fieldPresent req.name && fieldPresent req.rfid_tag &&
       fieldPresent req.«section» && fieldPresent req.id_number) then
    (.err 400 "Missing required fields: name, rfid_tag, section, id_number",
      db, trace0)
  else
    let name := req.name.getD ""
    let rfid_tag := req.rfid_tag.getD ""
    let «section» := req.«section».getD ""
    let id_number := req.id_number.getD ""
    let trace1 := trace0 ++ [StorageOp.query "select person by rfid_tag"]
    if db.persons.any (fun p => p.rfid_tag == rfid_tag) then
      (.err 400 "RFID tag already exists", db, trace1)
    else
      let trace2 := trace1 ++ [StorageOp.query "select person by id_number"]
      if db.persons.any (fun p => p.id_number == id_number) then
        (.err 400 "ID number already exists", db, trace2)
      else
        -- Interference point: concurrently committed state visible to the
        -- remaining statements of the transaction.
        let w := mid db
        let trace3 := trace2 ++ [StorageOp.query "select section by name"]
        let sectionStep := getOrCreateSection w «section»
        let w1 := sectionStep.1
        let sectionId := sectionStep.2.1
        let trace4 := trace3 ++
          (if sectionStep.2.2 then [StorageOp.insert "sections"] else [])
        if personInsertConflict w1 rfid_tag id_number then
          (.err 400 "Duplicate RFID tag or ID number", w,
            trace4 ++ [StorageOp.insert "persons", StorageOp.rollback])
        else
          let personId := nextPersonId w1
          let w2 := { w1 with persons := w1.persons ++
            [Person.mk personId name rfid_tag "student" id_number] }
          let w3 := { w2 with student_sections := w2.student_sections ++
            [SectionLink.mk personId sectionId] }
          (.ok personId name rfid_tag «section» id_number, w3,
            trace4 ++ [StorageOp.insert "persons",
              StorageOp.insert "student_sections", StorageOp.commit])

/-- The handler in the absence of concurrent interference. -/
def addStudentSeq (db : DB) (req : AddReq) : AddResp × DB × List StorageOp :=
  addStudent db id req

/-! ## The JSON payload shapes of every route

For the claim about the response envelope we record, for each route, the shape
of every object it can pass to `res.json(...)`: the field names together with
the literal booleans/strings where the source uses literals (`jother` stands
for any non-literal field value). -/

/-- Shape of one JSON field value as written in the source. -/
inductive JShape where
  | jbool (b : Bool)
  | jstr (s : String)
  | jother
  deriving Repr, DecidableEq

/-- A JSON payload shape: the ordered field list of one `res.json({...})`. -/
abbrev JPayload := List (String × JShape)

/-- Payload shapes of one route: every success payload and every error payload
the handler can emit. -/
structure RoutePayloads where
  route : String
  successes : List JPayload
  errors : List JPayload
  deriving DecidableEq

/-- All `res.json(...)` payload shapes of the API surface, transcribed
route by route from the source (including the error-handling middleware and
the 404 handler). -/
def apiRoutes : List RoutePayloads :=
  [ ⟨"GET /api/health",
      [[("status", .jstr "OK"), ("message", .jstr "NFC Attendance API is running")]],
      []⟩,
    ⟨"GET /api/sections",
      [[("success", .jbool true), ("sections", .jother)]],
      [[("success", .jbool false), ("error", .jstr "Failed to fetch sections")]]⟩,
    ⟨"POST /api/verify-attendance",
      [[("success", .jbool true), ("total_scans", .jother),
        ("verified_students", .jother), ("unrecognized", .jother),
        ("message", .jother)]],
      [[("success", .jbool false), ("error", .jstr "Invalid RFID tags array")],
       [("success", .jbool false), ("error", .jstr "Failed to verify attendance")]]⟩,
    ⟨"POST /api/add-student",
      [[("success", .jbool true), ("message", .jother), ("student", .jother)]],
      [[("success", .jbool false),
        ("error", .jstr "Missing required fields: name, rfid_tag, section, id_number")],
       [("success", .jbool false), ("error", .jstr "RFID tag already exists")],
       [("success", .jbool false), ("error", .jstr "ID number already exists")],
       [("success", .jbool false), ("error", .jstr "Duplicate RFID tag or ID number")],
       [("success", .jbool false), ("error", .jstr "Failed to add student")]]⟩,
    ⟨"GET /api/attendance",
      [[("success", .jbool true), ("records", .jother), ("count", .jother)]],
      [[("success", .jbool false), ("error", .jstr "Failed to fetch attendance records")]]⟩,
    ⟨"GET /api/students",
      [[("success", .jbool true), ("students", .jother)]],
      [[("success", .jbool false), ("error", .jstr "Failed to fetch students")]]⟩,
    ⟨"POST /api/init-db",
      [[("success", .jbool true), ("message", .jother)]],
      [[("success", .jbool false), ("error", .jstr "Failed to initialize database")]]⟩,
    ⟨"error middleware",
      [],
      [[("success", .jbool false), ("error", .jstr "Internal server error")]]⟩,
    ⟨"404 handler",
      [],
      [[("success", .jbool false), ("error", .jstr "Endpoint not found")]]⟩ ]

/-- Does a payload carry a boolean `success` flag? -/
def hasSuccessFlag (p : JPayload) : Bool :=
  p.any (fun f => f.1 == "success" && match f.2 with
    | .jbool _ => true
    | _ => false)

/-- Does a payload carry a string `error` field? -/
def hasErrorString (p : JPayload) : Bool :=
  p.any (fun f => f.1 == "error" && match f.2 with
    | .jstr _ => true
    | _ => false)

/-! ## Response accessors -/

/-- The `unrecognized` field of a verification response (`[]` on error). -/
def VerifyResp.unrecognizedOf : VerifyResp → List String
  | .err _ _ => []
  | .ok _ _ u _ => u

/-- The `verified_students` field of a verification response (`[]` on error). -/
def VerifyResp.verifiedOf : VerifyResp → List VerifiedStudent
  | .err _ _ => []
  | .ok _ v _ _ => v

/-- The `total_scans` field of a verification response (`0` on error). -/
def VerifyResp.totalScansOf : VerifyResp → Nat
  | .err _ _ => 0
  | .ok n _ _ _ => n

/-! ## Example database states used as concrete inputs -/

/-- A roster with one enrolled student, Alice, tag `T1`, in section `CS-A`. -/
def dbOneStudent : DB :=
  { persons := [⟨1, "Alice", "T1", "student", "S001"⟩],
    sections := [⟨1, "CS-A"⟩],
    student_sections := [⟨1, 1⟩],
    attendance := [] }

/-- Alice again, but linked to two sections `CS-A` and `CS-B` (the schema's
`student_sections` join table allows several links per person). -/
def dbTwoLinks : DB :=
  { persons := [⟨1, "Alice", "T1", "student", "S001"⟩],
    sections := [⟨1, "CS-A"⟩, ⟨2, "CS-B"⟩],
    student_sections := [⟨1, 1⟩, ⟨1, 2⟩],
    attendance := [] }

/-- A well-formed enrollment request for Bob with the fresh tag `T2`. -/
def reqBob : AddReq := ⟨some "Bob", some "T2", some "CS-A", some "S002"⟩

/-- Concurrent interference: another request commits a person carrying Bob's
tag `T2` between the pre-checks and the INSERT. -/
def interfereTag (d : DB) : DB :=
  { d with persons := d.persons ++ [⟨2, "Eve", "T2", "student", "S009"⟩] }

/-- Concurrent interference: another request commits a person carrying Bob's
id_number `S002` between the pre-checks and the INSERT. -/
def interfereId (d : DB) : DB :=
  { d with persons := d.persons ++ [⟨2, "Eve", "T9", "student", "S002"⟩] }

/-! ## Basic lemmas about the verification SELECT -/

lemma verifyQuery_nil (db : DB) : verifyQuery db [] = [] := by
  simp [verifyQuery, List.contains]

/-! ## Claim theorems -/

/-- C6: a verification request whose `rfid_tags` field is missing or not an
array fails with the invalid-input error before any storage operation: the
response is the 400 error, the database is unchanged, and the storage trace is
empty (no query, no insert). -/
theorem verify_invalid_input (db : DB) (now : Nat) :
    verifyAttendance db now .missing =
        (.err 400 "Invalid RFID tags array", db, []) ∧
      verifyAttendance db now .notArray =
        (.err 400 "Invalid RFID tags array", db, []) :=
  ⟨rfl, rfl⟩

/-- C10: verifying an empty token batch succeeds with `total_scans = 0`, empty
matched and unmatched lists, and inserts no attendance row; and whenever the
`classroom_id` field is omitted, every attendance row inserted by the call
carries the default location id 1. -/
theorem verify_empty_batch_and_default_location (db : DB) (now : Nat) :
    (∀ cid, verifyAttendance db now (.tags [] cid) =
      (.ok 0 [] [] "0 students verified, 0 unrecognized tags", db,
        [StorageOp.query "verify select"])) ∧
    (∀ rfid_tags, (verifyAttendance db now (.tags rfid_tags none)).2.1.attendance =
      db.attendance ++ (verifyQuery db rfid_tags).map
        (fun student => AttendanceEvent.mk student.person_id 1 now)) := by
  constructor
  · intro cid
    simp [verifyAttendance, verifyQuery_nil]
    rfl
  · intro rfid_tags
    rfl

/-- C3: an enrollment whose tag already exists in `persons` fails with the
duplicate-tag error and leaves the store exactly as it was: no Person, Section,
or link row is created (the handler returns before any INSERT, and the open
transaction is never committed). -/
theorem addStudent_duplicate_tag_rollback (db : DB) (req : AddReq)
    (hvalid : (fieldPresent req.name && fieldPresent req.rfid_tag &&
      fieldPresent req.«section» && fieldPresent req.id_number) = true)
    (hdup : db.persons.any (fun p => p.rfid_tag == req.rfid_tag.getD "") = true) :
    addStudentSeq db req = (.err 400 "RFID tag already exists", db,
      [StorageOp.connect, StorageOp.begin,
        StorageOp.query "select person by rfid_tag"]) := by
  unfold addStudentSeq addStudent
  simp [hvalid, hdup]

theorem addStudent_duplicate_tag_rollback_witness :
    addStudentSeq dbOneStudent ⟨some "Bob", some "T1", some "CS-A", some "S002"⟩ =
      (.err 400 "RFID tag already exists", dbOneStudent,
        [StorageOp.connect, StorageOp.begin,
          StorageOp.query "select person by rfid_tag"]) :=
  addStudent_duplicate_tag_rollback dbOneStudent
    ⟨some "Bob", some "T1", some "CS-A", some "S002"⟩ (by decide) (by decide)

/-- C5 counterexample: enrolling with a missing `name` does return the
invalid-input error, but storage access has already been attempted at that
point — the handler acquires a connection and issues `BEGIN` before reading or
validating the body, so a transaction *is* issued, contrary to the claim that
"no query or transaction is issued". -/
theorem addStudent_invalid_input_counterexample :
    (addStudentSeq dbOneStudent ⟨none, some "T2", some "CS-A", some "S002"⟩).1 =
        .err 400 "Missing required fields: name, rfid_tag, section, id_number" ∧
      StorageOp.begin ∈
        (addStudentSeq dbOneStudent ⟨none, some "T2", some "CS-A", some "S002"⟩).2.2 := by
  constructor
  · rfl
  · decide

/-- C5 (amended): an enrollment with a missing or empty required field fails
with the invalid-input error and creates no row (the database is unchanged),
and no data query, insert, or commit is issued — the only storage operations
issued before the early return are acquiring a connection and `BEGIN`, which
the handler runs before validating the body. -/
theorem addStudent_invalid_input (db : DB) (mid : DB → DB) (req : AddReq)
    (h : (fieldPresent req.name && fieldPresent req.rfid_tag &&
      fieldPresent req.«section» && fieldPresent req.id_number) = false) :
    addStudent db mid req =
      (.err 400 "Missing required fields: name, rfid_tag, section, id_number",
        db, [StorageOp.connect, StorageOp.begin]) := by
  unfold addStudent
  simp [h]

theorem addStudent_invalid_input_witness :
    addStudent dbOneStudent id ⟨some "Bob", some "", some "CS-A", some "S002"⟩ =
      (.err 400 "Missing required fields: name, rfid_tag, section, id_number",
        dbOneStudent, [StorageOp.connect, StorageOp.begin]) :=
  addStudent_invalid_input dbOneStudent id
    ⟨some "Bob", some "", some "CS-A", some "S002"⟩ (by decide)

/-- C4 counterexample: when the pre-checks pass but a storage-level uniqueness
violation (error code 23505) fires at INSERT time, the surfaced error does
*not* identify which field collided — a tag collision and an id_number
collision produce the identical response, the single combined message
`"Duplicate RFID tag or ID number"`. -/
theorem addStudent_race_error_counterexample :
    (addStudent dbOneStudent interfereTag reqBob).1 =
        .err 400 "Duplicate RFID tag or ID number" ∧
      (addStudent dbOneStudent interfereId reqBob).1 =
        .err 400 "Duplicate RFID tag or ID number" ∧
      (addStudent dbOneStudent interfereTag reqBob).1 =
        (addStudent dbOneStudent interfereId reqBob).1 := by
  refine ⟨rfl, rfl, rfl⟩

/-- C4 (amended): when the duplicate pre-checks pass but the INSERT hits a
storage-level uniqueness violation (a concurrent commit holding the same tag
or id_number), the error surfaced to the caller is the 400 domain error
`"Duplicate RFID tag or ID number"` — a duplicate-specific error distinct from
the generic 500 `"Failed to add student"` — but it is a single combined
message that does not identify which of the two fields collided. -/
theorem addStudent_race_duplicate_error (db : DB) (mid : DB → DB) (req : AddReq)
    (hvalid : (fieldPresent req.name && fieldPresent req.rfid_tag &&
      fieldPresent req.«section» && fieldPresent req.id_number) = true)
    (htag : db.persons.any (fun p => p.rfid_tag == req.rfid_tag.getD "") = false)
    (hid : db.persons.any (fun p => p.id_number == req.id_number.getD "") = false)
    (hconf : personInsertConflict (mid db) (req.rfid_tag.getD "")
      (req.id_number.getD "") = true) :
    (addStudent db mid req).1 = .err 400 "Duplicate RFID tag or ID number" ∧
      (addStudent db mid req).1 ≠ .err 500 "Failed to add student" := by
  have hpersons : (getOrCreateSection (mid db) (req.«section».getD "")).1.persons
      = (mid db).persons := by
    unfold getOrCreateSection
    split <;> rfl
  have hconf1 : personInsertConflict
      (getOrCreateSection (mid db) (req.«section».getD "")).1
      (req.rfid_tag.getD "") (req.id_number.getD "") = true := by
    rw [personInsertConflict, hpersons, ← personInsertConflict, hconf]
  unfold addStudent
  simp [hvalid, htag, hid, hconf1]

theorem addStudent_race_duplicate_error_witness :
    (addStudent dbOneStudent interfereTag reqBob).1 =
        .err 400 "Duplicate RFID tag or ID number" ∧
      (addStudent dbOneStudent interfereTag reqBob).1 ≠
        .err 500 "Failed to add student" :=
  addStudent_race_duplicate_error dbOneStudent interfereTag reqBob
    (by decide) (by decide) (by decide) (by decide)

/-- C9 counterexample: the claim fails at `GET /api/health`, whose success
payload is `{ status: 'OK', message: ... }` and carries no `success` flag. -/
theorem payload_success_flag_counterexample :
    ∃ r ∈ apiRoutes, r.route = "GET /api/health" ∧
      r.successes.any (fun p => !hasSuccessFlag p) = true := by
  decide

/-- C9 (amended): for every route of the API surface except `GET /api/health`,
every success payload and every error payload carries a boolean `success`
flag, and every error payload additionally carries a string `error` message;
the health endpoint's success payload carries neither flag. -/
theorem payload_success_flag :
    (apiRoutes.all (fun r =>
        r.route == "GET /api/health" ||
          (r.successes.all hasSuccessFlag &&
            r.errors.all (fun p => hasSuccessFlag p && hasErrorString p)))) = true := by
  decide

/-! ## Lemmas about the LEFT JOIN fan-out -/

lemma leftJoinRows_ne_nil (db : DB) (p : Person) : leftJoinRows db p ≠ [] := by
  simp only [leftJoinRows]
  split
  · simp
  · next h =>
    simp only [ne_eq, List.map_eq_nil_iff]
    intro hnil
    simp [hnil] at h

lemma rfid_tag_of_mem_leftJoinRows {db : DB} {p : Person} {r : VerifyRow}
    (h : r ∈ leftJoinRows db p) : r.rfid_tag = p.rfid_tag := by
  simp only [leftJoinRows] at h
  split at h
  · simp at h
    subst h
    rfl
  · rcases List.mem_map.mp h with ⟨l, _, rfl⟩
    rfl

lemma person_id_of_mem_leftJoinRows {db : DB} {p : Person} {r : VerifyRow}
    (h : r ∈ leftJoinRows db p) : r.person_id = p.person_id := by
  simp only [leftJoinRows] at h
  split at h
  · simp at h
    subst h
    rfl
  · rcases List.mem_map.mp h with ⟨l, _, rfl⟩
    rfl

/-- A tag occurs among the tags of the fanned-out rows of a person list iff
some person in the list carries it. -/
lemma mem_map_tag_flatMap {db : DB} {l : List Person} {t : String} :
    t ∈ (l.flatMap (leftJoinRows db)).map VerifyRow.rfid_tag ↔
      ∃ p ∈ l, p.rfid_tag = t := by
  simp only [List.mem_map, List.mem_flatMap]
  constructor
  · rintro ⟨r, ⟨p, hp, hr⟩, rfl⟩
    exact ⟨p, hp, (rfid_tag_of_mem_leftJoinRows hr).symm⟩
  · rintro ⟨p, hp, rfl⟩
    rcases List.exists_mem_of_ne_nil _ (leftJoinRows_ne_nil db p) with ⟨r, hr⟩
    exact ⟨r, ⟨p, hp, hr⟩, rfid_tag_of_mem_leftJoinRows hr⟩

lemma contains_eq_decide_mem (l : List String) (t : String) :
    l.contains t = decide (t ∈ l) := by
  simp [List.contains]

/-- For an input token, membership among the tags of the SELECT's result rows
is exactly "some enrolled student carries this tag". -/
lemma foundTags_contains_eq (db : DB) (ts : List String) (t : String)
    (ht : t ∈ ts) :
    ((verifyQuery db ts).map VerifyRow.rfid_tag).contains t =
      db.persons.any (fun p => p.rfid_tag == t && p.role == "student") := by
  rw [contains_eq_decide_mem, Bool.eq_iff_iff]
  simp only [decide_eq_true_eq, List.any_eq_true, Bool.and_eq_true, beq_iff_eq]
  constructor
  · intro hm
    rcases mem_map_tag_flatMap.mp hm with ⟨p, hp, rfl⟩
    rcases List.mem_filter.mp hp with ⟨hmem, hpred⟩
    have hrole : p.role = "student" := by
      simp only [Bool.and_eq_true, beq_iff_eq] at hpred
      exact hpred.2
    exact ⟨p, hmem, rfl, hrole⟩
  · rintro ⟨p, hmem, rfl, hrole⟩
    refine mem_map_tag_flatMap.mpr ⟨p, List.mem_filter.mpr ⟨hmem, ?_⟩, rfl⟩
    simp only [Bool.and_eq_true, contains_eq_decide_mem, beq_iff_eq]
    exact ⟨decide_eq_true ht, hrole⟩

/-- C7: the `unrecognized` list of a verification response is exactly the
input tokens for which no enrolled student (a `persons` row with role
`'student'`) carries the token as tag, preserving the input's original order
and duplicates (it is a `filter` of the input list). -/
theorem verify_unmatched_exact (db : DB) (now : Nat) (ts : List String)
    (cid : Option Nat) :
    ((verifyAttendance db now (.tags ts cid)).1).unrecognizedOf =
      ts.filter (fun t =>
        !(db.persons.any (fun p => p.rfid_tag == t && p.role == "student"))) := by
  show ts.filter (fun t => !((verifyQuery db ts).map VerifyRow.rfid_tag).contains t) = _
  refine List.filter_congr ?_
  intro t ht
  rw [foundTags_contains_eq db ts t ht]

lemma getOrCreateSection_new (w : DB) (n : String)
    (h : w.sections.find? (fun s => s.section_name == n) = none) :
    getOrCreateSection w n =
      ({ w with sections := w.sections ++ [⟨nextSectionId w, n⟩] },
        nextSectionId w, true) := by
  unfold getOrCreateSection
  rw [h]

lemma getOrCreateSection_existing (w : DB) (n : String) (s0 : SectionRow)
    (h : w.sections.find? (fun s => s.section_name == n) = some s0) :
    getOrCreateSection w n = (w, s0.section_id, false) := by
  unfold getOrCreateSection
  rw [h]

/-- C8: section get-or-create is idempotent on the (case-sensitive, exact)
section name.  For a successful enrollment: if no section with the requested
name exists, exactly one new `sections` row with that name is appended; if one
already exists, the `sections` table is unchanged and the new link row
references the existing section's id. -/
theorem section_get_or_create_idempotent (db : DB) (req : AddReq)
    (hvalid : (fieldPresent req.name && fieldPresent req.rfid_tag &&
      fieldPresent req.«section» && fieldPresent req.id_number) = true)
    (htag : db.persons.any (fun p => p.rfid_tag == req.rfid_tag.getD "") = false)
    (hid : db.persons.any (fun p => p.id_number == req.id_number.getD "") = false) :
    (db.sections.find? (fun s => s.section_name == req.«section».getD "") = none →
      (addStudentSeq db req).2.1.sections =
        db.sections ++ [⟨nextSectionId db, req.«section».getD ""⟩]) ∧
    (∀ s0,
      db.sections.find? (fun s => s.section_name == req.«section».getD "") = some s0 →
      (addStudentSeq db req).2.1.sections = db.sections ∧
        (addStudentSeq db req).2.1.student_sections =
          db.student_sections ++ [⟨nextPersonId db, s0.section_id⟩]) := by
  constructor
  · intro hnew
    unfold addStudentSeq addStudent
    simp only [id_eq, hvalid, htag, hid, getOrCreateSection_new db _ hnew,
      Bool.not_true, Bool.false_eq_true, if_false, if_true,
      personInsertConflict]
    simp [htag, hid]
  · intro s0 hex
    unfold addStudentSeq addStudent
    simp only [id_eq, hvalid, htag, hid, getOrCreateSection_existing db _ s0 hex,
      Bool.not_true, Bool.false_eq_true, if_false, if_true,
      personInsertConflict]
    simp [htag, hid]

theorem section_get_or_create_idempotent_witness :
    (addStudentSeq dbOneStudent reqBob).2.1.sections = dbOneStudent.sections ∧
      (addStudentSeq dbOneStudent reqBob).2.1.student_sections =
        dbOneStudent.student_sections ++ [⟨2, 1⟩] := by
  have h := section_get_or_create_idempotent dbOneStudent reqBob
    (by decide) (by decide) (by decide)
  exact h.2 ⟨1, "CS-A"⟩ (by decide)

/-! ## Counting lemmas for the fan-out of the verification SELECT -/

lemma leftJoinRows_length_one (db : DB) (p : Person)
    (h : (db.student_sections.filter
      (fun l => l.person_id == p.person_id)).length ≤ 1) :
    (leftJoinRows db p).length = 1 := by
  simp only [leftJoinRows]
  split
  · rfl
  · next hne =>
    rw [List.length_map]
    have h1 : db.student_sections.filter
        (fun l => l.person_id == p.person_id) ≠ [] := by
      simpa [List.isEmpty_iff] using hne
    have h2 := List.length_pos.mpr h1
    omega

lemma flatMap_rows_length (db : DB) (l : List Person)
    (h : ∀ p ∈ l, (db.student_sections.filter
      (fun s => s.person_id == p.person_id)).length ≤ 1) :
    (l.flatMap (leftJoinRows db)).length = l.length := by
  induction l with
  | nil => rfl
  | cons p l ih =>
    rw [List.flatMap_cons, List.length_append,
      leftJoinRows_length_one db p (h p (by simp)),
      ih (fun q hq => h q (by simp [hq]))]
    simp [List.length_cons, Nat.add_comm]

/-- Two duplicate-free lists of strings select the same number of elements
from each other (both count the intersection). -/
lemma length_filter_contains_comm (A B : List String)
    (hA : A.Nodup) (hB : B.Nodup) :
    (A.filter (fun t => B.contains t)).length =
      (B.filter (fun t => A.contains t)).length := by
  rw [← List.toFinset_card_of_nodup (hA.filter _),
    ← List.toFinset_card_of_nodup (hB.filter _)]
  congr 1
  ext t
  simp only [List.mem_toFinset, List.mem_filter, contains_eq_decide_mem,
    decide_eq_true_eq]
  exact and_comm

/-- The tags of the enrolled students, as listed by the roster. -/
def studentTags (db : DB) : List String :=
  (db.persons.filter (fun p => p.role == "student")).map Person.rfid_tag

lemma studentTags_contains_eq (db : DB) (t : String) :
    (studentTags db).contains t =
      db.persons.any (fun p => p.rfid_tag == t && p.role == "student") := by
  rw [contains_eq_decide_mem, Bool.eq_iff_iff]
  simp only [studentTags, decide_eq_true_eq, List.mem_map, List.mem_filter,
    List.any_eq_true, Bool.and_eq_true, beq_iff_eq]
  constructor
  · rintro ⟨p, ⟨hp, hrole⟩, rfl⟩
    exact ⟨p, hp, rfl, hrole⟩
  · rintro ⟨p, hp, rfl, hrole⟩
    exact ⟨p, ⟨hp, hrole⟩, rfl⟩

/-- Under the hypotheses of the amended partition claim, the number of result
rows of the SELECT equals the number of input tokens that match an enrolled
student. -/
lemma verifyQuery_length (db : DB) (ts : List String)
    (hts : ts.Nodup) (hS : (studentTags db).Nodup)
    (hlink : ∀ p ∈ db.persons, (db.student_sections.filter
      (fun l => l.person_id == p.person_id)).length ≤ 1) :
    (verifyQuery db ts).length =
      (ts.filter (fun t => (studentTags db).contains t)).length := by
  rw [verifyQuery, flatMap_rows_length db _
    (fun p hp => hlink p (List.mem_filter.mp hp).1)]
  have hsplit : db.persons.filter
      (fun p => ts.contains p.rfid_tag && p.role == "student") =
      (db.persons.filter (fun p => p.role == "student")).filter
        (fun p => ts.contains p.rfid_tag) := by
    rw [List.filter_filter]
  rw [hsplit]
  have hmap : ((db.persons.filter (fun p => p.role == "student")).filter
      (fun p => ts.contains p.rfid_tag)).length =
      ((studentTags db).filter (fun t => ts.contains t)).length := by
    simp [studentTags, List.filter_map, Function.comp]
  rw [hmap, length_filter_contains_comm _ _ hS hts]

/-- C1 counterexample: the partition equation
`matched.length + unmatched.length = total_scans` fails on the code in two
ways.  With a duplicate token (`["T1","T1"]` against a roster enrolling `T1`)
the matched list has one entry and the unmatched list none, against
`total_scans = 2`; and with a student linked to two sections the LEFT JOIN
fans out to two matched entries for a single scanned token. -/
theorem verify_partition_counterexample :
    ((verifyAttendance dbOneStudent 5 (.tags ["T1", "T1"] none)).1.verifiedOf.length = 1 ∧
      (verifyAttendance dbOneStudent 5 (.tags ["T1", "T1"] none)).1.unrecognizedOf.length = 0 ∧
      (verifyAttendance dbOneStudent 5 (.tags ["T1", "T1"] none)).1.totalScansOf = 2) ∧
    ((verifyAttendance dbTwoLinks 5 (.tags ["T1"] none)).1.verifiedOf.length = 2 ∧
      (verifyAttendance dbTwoLinks 5 (.tags ["T1"] none)).1.unrecognizedOf.length = 0 ∧
      (verifyAttendance dbTwoLinks 5 (.tags ["T1"] none)).1.totalScansOf = 1) := by
  decide

/-- C1 (amended): for batches of pairwise-distinct tokens, against a roster in
which the enrolled students' tags are pairwise distinct and every person has
at most one section link, `total_scans` is the input length,
`matched.length + unmatched.length = total_scans`, and every input token
appears in exactly one of the two sets (among the matched tags, or in the
unmatched list).  Duplicate input tokens, or several section links on one
matched person, break the length equation (see the counterexample). -/
theorem verify_partition_length (db : DB) (now : Nat) (ts : List String)
    (cid : Option Nat)
    (hts : ts.Nodup) (hS : (studentTags db).Nodup)
    (hlink : ∀ p ∈ db.persons, (db.student_sections.filter
      (fun l => l.person_id == p.person_id)).length ≤ 1) :
    (verifyAttendance db now (.tags ts cid)).1.totalScansOf = ts.length ∧
    ((verifyAttendance db now (.tags ts cid)).1.verifiedOf.length +
      (verifyAttendance db now (.tags ts cid)).1.unrecognizedOf.length = ts.length) ∧
    ∀ t ∈ ts,
      ((((verifyAttendance db now (.tags ts cid)).1.verifiedOf.map
          VerifiedStudent.rfid_tag).contains t = true ∧
        (verifyAttendance db now (.tags ts cid)).1.unrecognizedOf.contains t = false) ∨
      ((((verifyAttendance db now (.tags ts cid)).1.verifiedOf.map
          VerifiedStudent.rfid_tag).contains t = false ∧
        (verifyAttendance db now (.tags ts cid)).1.unrecognizedOf.contains t = true))) := by
  have hfound : ∀ t ∈ ts,
      (((verifyQuery db ts).map VerifyRow.rfid_tag).contains t) =
        ((studentTags db).contains t) := by
    intro t ht
    rw [foundTags_contains_eq db ts t ht, studentTags_contains_eq]
  have hv : (verifyAttendance db now (.tags ts cid)).1.verifiedOf.map
      VerifiedStudent.rfid_tag = (verifyQuery db ts).map VerifyRow.rfid_tag := by
    show ((verifyQuery db ts).map _).map _ = _
    simp [List.map_map, Function.comp]
  have hu : (verifyAttendance db now (.tags ts cid)).1.unrecognizedOf
      = ts.filter (fun s =>
          !((verifyQuery db ts).map VerifyRow.rfid_tag).contains s) := rfl
  refine ⟨rfl, ?_, ?_⟩
  · have hvl : (verifyAttendance db now (.tags ts cid)).1.verifiedOf.length
        = (verifyQuery db ts).length := by
      show ((verifyQuery db ts).map _).length = _
      rw [List.length_map]
    rw [hvl, hu, verifyQuery_length db ts hts hS hlink]
    have hcong : ts.filter (fun s =>
          !((verifyQuery db ts).map VerifyRow.rfid_tag).contains s)
        = ts.filter (fun s => !((studentTags db).contains s)) :=
      List.filter_congr (fun t ht => by rw [hfound t ht])
    rw [hcong]
    exact (List.length_eq_length_filter_add
      (fun t => (studentTags db).contains t)).symm
  · intro t ht
    rw [hv, hu]
    cases hc : ((verifyQuery db ts).map VerifyRow.rfid_tag).contains t
    · right
      refine ⟨rfl, ?_⟩
      rw [contains_eq_decide_mem, decide_eq_true_eq]
      exact List.mem_filter.mpr ⟨ht, by rw [hc]; rfl⟩
    · left
      refine ⟨rfl, ?_⟩
      rw [contains_eq_decide_mem]
      simp only [decide_eq_false_iff_not]
      intro hmem
      have hneg := (List.mem_filter.mp hmem).2
      rw [hc] at hneg
      simp at hneg

theorem verify_partition_length_witness :
    (verifyAttendance dbOneStudent 5 (.tags ["T1", "T2"] none)).1.totalScansOf = 2 ∧
      ((verifyAttendance dbOneStudent 5 (.tags ["T1", "T2"] none)).1.verifiedOf.length +
        (verifyAttendance dbOneStudent 5 (.tags ["T1", "T2"] none)).1.unrecognizedOf.length
          = 2) ∧
      ∀ t ∈ ["T1", "T2"],
        ((((verifyAttendance dbOneStudent 5 (.tags ["T1", "T2"] none)).1.verifiedOf.map
            VerifiedStudent.rfid_tag).contains t = true ∧
          (verifyAttendance dbOneStudent 5 (.tags ["T1", "T2"] none)).1.unrecognizedOf.contains t
            = false) ∨
        ((((verifyAttendance dbOneStudent 5 (.tags ["T1", "T2"] none)).1.verifiedOf.map
            VerifiedStudent.rfid_tag).contains t = false ∧
          (verifyAttendance dbOneStudent 5 (.tags ["T1", "T2"] none)).1.unrecognizedOf.contains t
            = true))) :=
  verify_partition_length dbOneStudent 5 ["T1", "T2"] none
    (by decide) (by decide) (by decide)

/-- Rows fanned out from persons whose ids all differ from `x` contribute no
row with `person_id = x`. -/
lemma flatMap_rows_filter_id_nil (db : DB) (l : List Person) (x : Nat)
    (hx : ∀ q ∈ l, q.person_id ≠ x) :
    (l.flatMap (leftJoinRows db)).filter (fun r => r.person_id == x) = [] := by
  rw [List.filter_eq_nil_iff]
  intro r hr
  rcases List.mem_flatMap.mp hr with ⟨q, hq, hrq⟩
  simp [person_id_of_mem_leftJoinRows hrq, hx q hq]

/-- Under unique person ids and at most one link per person, the SELECT's
result set contains at most one row for any fixed `person_id`. -/
lemma flatMap_rows_count_le_one (db : DB) (l : List Person) (x : Nat)
    (hnodup : (l.map Person.person_id).Nodup)
    (hlink : ∀ p ∈ l, (db.student_sections.filter
      (fun s => s.person_id == p.person_id)).length ≤ 1) :
    ((l.flatMap (leftJoinRows db)).filter
      (fun r => r.person_id == x)).length ≤ 1 := by
  induction l with
  | nil => simp
  | cons p l ih =>
    rw [List.flatMap_cons, List.filter_append, List.length_append]
    rw [List.map_cons, List.nodup_cons] at hnodup
    obtain ⟨hpx, hl⟩ := hnodup
    by_cases hpid : p.person_id = x
    · have htail : (l.flatMap (leftJoinRows db)).filter
          (fun r => r.person_id == x) = [] := by
        refine flatMap_rows_filter_id_nil db l x ?_
        intro q hq hqx
        exact hpx (by rw [hpid, ← hqx]; exact List.mem_map_of_mem _ hq)
      have hhead : ((leftJoinRows db p).filter
          (fun r => r.person_id == x)).length ≤ 1 := by
        calc ((leftJoinRows db p).filter (fun r => r.person_id == x)).length
            ≤ (leftJoinRows db p).length := List.length_filter_le _ _
          _ = 1 := leftJoinRows_length_one db p (hlink p (by simp))
      rw [htail]
      simpa using hhead
    · have hhead : (leftJoinRows db p).filter (fun r => r.person_id == x) = [] := by
        rw [List.filter_eq_nil_iff]
        intro r hr
        simp [person_id_of_mem_leftJoinRows hr, hpid]
      rw [hhead]
      simpa using ih hl (fun q hq => hlink q (by simp [hq]))

/-- C2 counterexample: starting from an empty attendance log, a single scan of
the tag of a student linked to two sections inserts *two* AttendanceEvent rows
for that person in one verification call — the handler inserts one row per
result row of the LEFT JOIN, not one per matched person. -/
theorem verify_one_event_per_person_counterexample :
    dbTwoLinks.attendance.length = 0 ∧
      ((verifyAttendance dbTwoLinks 5 (.tags ["T1"] none)).2.1.attendance.filter
        (fun e => e.person_id == 1)).length = 2 := by
  constructor
  · rfl
  · decide

/-- C2 (amended): each verification call appends one AttendanceEvent per
result row of the SELECT (so one per section link of a matched person), and
nothing is ever removed — no deduplication across calls.  Provided person ids
are unique and every person has at most one section link, this gives at most
one new AttendanceEvent per person per call, however often the person's tag
repeats in the batch. -/
theorem verify_events_per_person (db : DB) (now : Nat) (ts : List String)
    (cid : Option Nat)
    (hnodup : (db.persons.map Person.person_id).Nodup)
    (hlink : ∀ p ∈ db.persons, (db.student_sections.filter
      (fun l => l.person_id == p.person_id)).length ≤ 1) :
    (verifyAttendance db now (.tags ts cid)).2.1.attendance =
      db.attendance ++ (verifyQuery db ts).map
        (fun r => AttendanceEvent.mk r.person_id (cid.getD 1) now) ∧
    ∀ x, ((verifyAttendance db now (.tags ts cid)).2.1.attendance.filter
        (fun e => e.person_id == x)).length ≤
      (db.attendance.filter (fun e => e.person_id == x)).length + 1 := by
  refine ⟨rfl, ?_⟩
  intro x
  show ((db.attendance ++ (verifyQuery db ts).map
    (fun r => AttendanceEvent.mk r.person_id (cid.getD 1) now)).filter
      (fun e => e.person_id == x)).length ≤ _
  rw [List.filter_append, List.length_append]
  have hnew : (((verifyQuery db ts).map
      (fun r => AttendanceEvent.mk r.person_id (cid.getD 1) now)).filter
        (fun e => e.person_id == x)).length ≤ 1 := by
    rw [List.filter_map, List.length_map]
    have hsub : ((db.persons.filter
        (fun p => ts.contains p.rfid_tag && p.role == "student")).map
          Person.person_id).Nodup :=
      hnodup.sublist (List.Sublist.map _ (List.filter_sublist _))
    exact flatMap_rows_count_le_one db _ x hsub
      (fun p hp => hlink p (List.mem_filter.mp hp).1)
  omega

theorem verify_events_per_person_witness :
    (verifyAttendance dbOneStudent 5 (.tags ["T1"] none)).2.1.attendance =
      dbOneStudent.attendance ++ (verifyQuery dbOneStudent ["T1"]).map
        (fun r => AttendanceEvent.mk r.person_id 1 5) ∧
    ∀ x, ((verifyAttendance dbOneStudent 5 (.tags ["T1"] none)).2.1.attendance.filter
        (fun e => e.person_id == x)).length ≤
      (dbOneStudent.attendance.filter (fun e => e.person_id == x)).length + 1 :=
  verify_events_per_person dbOneStudent 5 ["T1"] none (by decide) (by decide)
